import Mathlib

/-!
Verification of the "Ilre" prompt-vault application core against its
natural-language specification.

The development embeds the data model (`PromptItem`, `CategoryType` from
`types.ts`), the import/export logic of `DataSettingsModal.tsx`
(`handleFileChange`, `handleExport`), the in-memory filtering of `App.tsx`
(`filteredItems`), the save/edit logic of `App.tsx` (`handleSaveItem`), the
form validation of `PromptFormModal` (`handleSubmit`), and the remote
refinement wrapper of `geminiService.ts` (`refinePrompt`).

JSON values flowing through import/export are modelled by the inductive
`JValue`; JavaScript truthiness of a (possibly absent) field is `jsTruthy`.
The asynchronous `db.save` calls performed by the import loop are modelled
by accumulating the saved values in order; the user-visible status message
is modelled as the string the component renders.
-/

/-- A parsed JSON value, as produced by `JSON.parse`. -/
inductive JValue where
  | null : JValue
  | bool : Bool → JValue
  | num : Int → JValue
  | str : String → JValue
  | arr : List JValue → JValue
  | obj : List (String × JValue) → JValue

/-- Property access `v[k]` on a JSON object: the value of the first field
named `k`, or `none` (JavaScript `undefined`) when the field is absent or
the value is not an object. (Access on `null` throws and is handled
separately in `importLoop`.) -/
def jlookup (k : String) : List (String × JValue) → Option JValue
  | [] => none
  | (k1, v) :: rest => if k = k1 then some v else jlookup k rest

/-- Field access on a JSON value (`undefined` for non-objects). -/
def JValue.get? : JValue → String → Option JValue
  | JValue.obj fields, k => jlookup k fields
  | _, _ => none

/-- Whether a JSON value is `null`. -/
def JValue.isNull : JValue → Bool
  | JValue.null => true
  | _ => false

/-- Whether a JSON value is an array (`Array.isArray`). -/
def JValue.isArr : JValue → Bool
  | JValue.arr _ => true
  | _ => false

/-- JavaScript truthiness of a possibly-absent value: `undefined`, `null`,
`false`, `0` and `""` are falsy; everything else is truthy. -/
def jsTruthy : Option JValue → Bool
  | none => false
  | some JValue.null => false
  | some (JValue.bool b) => b
  | some (JValue.num n) => n != 0
  | some (JValue.str s) => s != ""
  | some (JValue.arr _) => true
  | some (JValue.obj _) => true

/-- The acceptance test of the import loop in `handleFileChange`:
`item.id && item.category && item.prompt`. -/
def validImportItem (item : JValue) : Bool :=
  jsTruthy (item.get? "id") && jsTruthy (item.get? "category")
    && jsTruthy (item.get? "prompt")

/-- State reached by the import loop: whether it ran to completion without
throwing, the final value of the `count` variable, and the items passed to
`db.save` in order. -/
structure LoopState where
  ok : Bool
  count : Nat
  saved : List JValue

/-- The `for (const item of parsedData)` loop of `handleFileChange`.
Accessing `item.id` on a `null` element throws a `TypeError`, which the
surrounding `catch` turns into a failed import; saves already performed
are kept. -/
def importLoop : List JValue → Nat → List JValue → LoopState
  | [], count, saved => ⟨true, count, saved⟩
  | JValue.null :: _, count, saved => ⟨false, count, saved⟩
  | item :: rest, count, saved =>
    if validImportItem item then importLoop rest (count + 1) (saved ++ [item])
    else importLoop rest count saved

/-- The success status message rendered after an import:
`成功恢复了 ${count} 条数据！`. -/
def successMessage (count : Nat) : String :=
  "成功恢复了 " ++ toString count ++ " 条数据！"

/-- The error status message rendered when an import fails. -/
def failMessage : String := "导入失败：文件格式不正确或已损坏。"

/-- Observable outcome of an import: whether it succeeded, the accepted
count, the records passed to `db.save` in order, and the status message
shown to the user. -/
structure ImportResult where
  ok : Bool
  accepted : Nat
  saved : List JValue
  message : String

/-- `handleFileChange` after `JSON.parse` succeeded: reject non-arrays
outright (`throw new Error("Invalid format")`), otherwise run the
per-element loop and report the accepted count. -/
def importAll (parsedData : JValue) : ImportResult :=
  match parsedData with
  | JValue.arr items =>
    let st := importLoop items 0 []
    if st.ok then ⟨true, st.count, st.saved, successMessage st.count⟩
    else ⟨false, st.count, st.saved, failMessage⟩
  | _ => ⟨false, 0, [], failMessage⟩

/-- The five recognized category values of the specification. -/
def recognizedCategories : List String :=
  ["txt2img", "img2img", "img2vid", "txt2vid", "general"]

/-- An import element whose `category` is not one of the five recognized
values but whose `id`, `category` and `prompt` fields are all truthy. -/
def c1BadItem : JValue :=
  JValue.obj [("id", JValue.str "1"), ("category", JValue.str "bogus"),
    ("prompt", JValue.str "x")]

/-- A mixed demonstration payload: one fully valid element, one element
with an empty id, and one non-object element. -/
def c1DemoItems : List JValue :=
  [JValue.obj [("id", JValue.str "1"), ("category", JValue.str "txt2img"),
     ("prompt", JValue.str "a")],
   JValue.obj [("id", JValue.str "")],
   JValue.num 7]

/-- The valid first element of the payload named by claim C2. -/
def c2GoodItem : JValue :=
  JValue.obj [("id", JValue.str "1"), ("category", JValue.str "general"),
    ("prompt", JValue.str "x")]

/-- The two-element payload named by claim C2: a valid record followed by
an element carrying only an id. -/
def c2Payload : JValue :=
  JValue.arr [c2GoodItem, JValue.obj [("id", JValue.str "2")]]

/-- Number of elements of an import payload that are skipped (rejected):
the element count minus the accepted count. This is a specification-side
notion; the code never computes or reports it. -/
def rejectedOf (v : JValue) : Nat :=
  match v with
  | JValue.arr items => items.length - (importAll v).accepted
  | _ => 0

/-- The category tags of `types.ts` (`CategoryType`). -/
inductive CategoryType where
  | txt2img
  | img2img
  | img2vid
  | txt2vid
  | general
deriving DecidableEq, Repr

/-- The serialized name of a category tag. -/
def categoryName : CategoryType → String
  | CategoryType.txt2img => "txt2img"
  | CategoryType.img2img => "img2img"
  | CategoryType.img2vid => "img2vid"
  | CategoryType.txt2vid => "txt2vid"
  | CategoryType.general => "general"

/-- The `PromptItem` record of `types.ts`; optional fields are `Option`. -/
structure PromptItem where
  id : String
  title : String
  prompt : String
  negativePrompt : Option String := none
  category : CategoryType
  outputMediaUrl : Option String := none
  inputMediaUrl : Option String := none
  modelUsed : Option String := none
  tags : List String
  isVideo : Option Bool := none
deriving DecidableEq, Repr

/-- `needle` is a leading segment of `hay`, character by character. -/
def leadMatch : List Char → List Char → Bool
  | [], _ => true
  | _ :: _, [] => false
  | a :: as, b :: bs => a == b && leadMatch as bs

/-- `needle` occurs contiguously somewhere in the second list. -/
def subMatch (needle : List Char) : List Char → Bool
  | [] => needle.isEmpty
  | c :: rest => leadMatch needle (c :: rest) || subMatch needle rest

/-- JavaScript `s.includes(sub)`. -/
def jsIncludes (s sub : String) : Bool := subMatch sub.data s.data

/-- JavaScript `s.toLowerCase()`, modelled on the ASCII range. -/
def jsToLower (s : String) : String := String.mk (s.data.map Char.toLower)

/-- The search predicate of `filteredItems` in `App.tsx`: case-insensitive
containment of the query in the title, the prompt, or some tag. -/
def matchesSearch (searchQuery : String) (item : PromptItem) : Bool :=
  jsIncludes (jsToLower item.title) (jsToLower searchQuery)
    || jsIncludes (jsToLower item.prompt) (jsToLower searchQuery)
    || item.tags.any (fun tag => jsIncludes (jsToLower tag) (jsToLower searchQuery))

/-- `filteredItems` of `App.tsx`: category equality ANDed with the search
predicate. -/
def filteredItems (items : List PromptItem) (activeCategory : CategoryType)
    (searchQuery : String) : List PromptItem :=
  items.filter (fun item =>
    (item.category == activeCategory) && matchesSearch searchQuery item)

/-- Case-insensitive substring containment, as the specification words
it. -/
def ciMatch (field searchText : String) : Prop :=
  jsIncludes (jsToLower field) (jsToLower searchText) = true

/-- The record-keeping predicate as the specification words it: the
category must match, and for non-empty search text the title, the prompt,
or some tag must contain the text case-insensitively (an OR across the
three fields); empty search text matches every record. -/
def specKeep (category : CategoryType) (searchText : String)
    (r : PromptItem) : Prop :=
  r.category = category ∧
    (searchText = "" ∨ ciMatch r.title searchText ∨ ciMatch r.prompt searchText ∨
      ∃ t ∈ r.tags, ciMatch t searchText)

instance (c : CategoryType) (q : String) (r : PromptItem) :
    Decidable (specKeep c q r) := by
  unfold specKeep ciMatch
  infer_instance

/-- Result of `handleSaveItem` in `App.tsx`: the updated in-memory list
and the record passed to `db.save`. -/
structure SaveOutcome where
  items : List PromptItem
  saved : PromptItem

/-- `handleSaveItem` of `App.tsx`. With `editingItem` set, the list entry
whose id equals the submitted record's id is replaced wholesale and the
submitted record is saved; otherwise a new record is built from the form
data with a fresh `Date.now().toString()` id, prepended, and saved. -/
def handleSaveItem (editingItem : Option PromptItem)
    (prev : List PromptItem) (itemData : PromptItem) (now : Nat) :
    SaveOutcome :=
  match editingItem with
  | some _ =>
    { items := prev.map (fun item =>
        if item.id = itemData.id then itemData else item),
      saved := itemData }
  | none =>
    let newItem := { itemData with id := toString now }
    { items := newItem :: prev, saved := newItem }

/-- JavaScript `s.trim()`: strip leading and trailing whitespace. -/
def jsTrim (s : String) : String :=
  String.mk (((s.data.dropWhile Char.isWhitespace).reverse.dropWhile
    Char.isWhitespace).reverse)

/-- Truthiness of an optional string: absent and empty are falsy. -/
def jsTruthyStr : Option String → Bool
  | none => false
  | some s => s != ""

/-- `!formData.title?.trim()`: the optional-chaining emptiness test used
by `handleSubmit` — the field is missing, or blank after trimming. -/
def emptyAfterTrim : Option String → Bool
  | none => true
  | some s => jsTrim s == ""

/-- The partial form state of `PromptFormModal` (`Partial<PromptItem>`). -/
structure FormData where
  id : Option String := none
  title : Option String := none
  prompt : Option String := none
  negativePrompt : Option String := none
  category : Option CategoryType := none
  outputMediaUrl : Option String := none
  inputMediaUrl : Option String := none
  modelUsed : Option String := none
  tags : Option (List String) := none
  isVideo : Option Bool := none
deriving DecidableEq, Repr

/-- `handleSubmit` of `PromptFormModal`: record an error for a blank
title, a blank prompt, or a missing output media URL on a non-general
category; if any error was recorded, return before calling `onSave`,
otherwise invoke `onSave formData`. `some f` models the `onSave` call
(which forwards to `db.save`), `none` models the early return. -/
def handleSubmit (f : FormData) : Option FormData :=
  let titleError := emptyAfterTrim f.title
  let promptError := emptyAfterTrim f.prompt
  let outputError := (f.category != some CategoryType.general)
    && !(jsTruthyStr f.outputMediaUrl)
  if titleError || promptError || outputError then none else some f

/-- A form with a blank title, used to witness `c5_validation_blocks_save`. -/
def c5Form : FormData :=
  { title := some " ", prompt := some "x",
    category := some CategoryType.txt2img, outputMediaUrl := some "u",
    tags := some [] }

/-- Outcome of the remote `generateContent` call: a thrown error, or a
response whose `text` may be absent. -/
inductive RemoteOutcome where
  | failure : RemoteOutcome
  | response : Option String → RemoteOutcome

/-- The string returned when no API key is configured. -/
def apiKeyMissingMessage : String := "API Key missing. Unable to refine prompt."

/-- The string returned when the remote call throws. -/
def remoteErrorMessage : String := "Error communicating with AI service."

/-- The fallback string when the response carries no text. -/
def emptyResponseMessage : String := "Could not generate response."

/-- `refinePrompt` of `geminiService.ts`, with the environment's API key
and the remote call's outcome passed explicitly. A missing (or empty,
hence falsy) key short-circuits to the unavailable message; a thrown
remote error is caught and mapped to an error string; a response without
text falls back to a fixed string. The function always returns a string —
the original prompt is only interpolated into the request, never
modified. -/
def refinePrompt (apiKey : Option String) (_originalPrompt : String)
    (remote : RemoteOutcome) : String :=
  if !(jsTruthyStr apiKey) then apiKeyMissingMessage
  else
    match remote with
    | RemoteOutcome.failure => remoteErrorMessage
    | RemoteOutcome.response t =>
      match t with
      | none => emptyResponseMessage
      | some s => if s = "" then emptyResponseMessage else s

/-- An import element with a non-general category and no `outputMediaUrl`
field at all. -/
def c10Item : JValue :=
  JValue.obj [("id", JValue.str "77"), ("category", JValue.str "img2vid"),
    ("prompt", JValue.str "x")]

/-- An optional string field of a record, as `JSON.stringify` renders it:
omitted entirely when the field is `undefined`. -/
def optField (k : String) : Option String → List (String × JValue)
  | none => []
  | some s => [(k, JValue.str s)]

/-- The JSON object `JSON.stringify` produces for a `PromptItem` — all
present fields serialized, `undefined` optional fields omitted. -/
def toJValue (p : PromptItem) : JValue :=
  JValue.obj
    ([("id", JValue.str p.id), ("title", JValue.str p.title),
      ("prompt", JValue.str p.prompt)]
      ++ optField "negativePrompt" p.negativePrompt
      ++ [("category", JValue.str (categoryName p.category))]
      ++ optField "outputMediaUrl" p.outputMediaUrl
      ++ optField "inputMediaUrl" p.inputMediaUrl
      ++ optField "modelUsed" p.modelUsed
      ++ [("tags", JValue.arr (p.tags.map JValue.str))]
      ++ (match p.isVideo with
          | none => []
          | some b => [("isVideo", JValue.bool b)]))

/-- `handleExport` of `DataSettingsModal.tsx` at the JSON level: the
backup is the array of the serialized records (`JSON.stringify` followed
by `JSON.parse` is the identity on this fragment of JSON). -/
def exportAll (items : List PromptItem) : JValue :=
  JValue.arr (items.map toJValue)

/-- Read a string field back from a serialized record. -/
def asStr : Option JValue → Option String
  | some (JValue.str s) => some s
  | _ => none

/-- Read a boolean field back from a serialized record. -/
def asBool : Option JValue → Option Bool
  | some (JValue.bool b) => some b
  | _ => none

/-- Parse a category tag back from its serialized name. -/
def categoryOfName (s : String) : Option CategoryType :=
  if s = "txt2img" then some CategoryType.txt2img
  else if s = "img2img" then some CategoryType.img2img
  else if s = "img2vid" then some CategoryType.img2vid
  else if s = "txt2vid" then some CategoryType.txt2vid
  else if s = "general" then some CategoryType.general
  else none

/-- Decode a serialized tags array. -/
def decodeTags : List JValue → Option (List String)
  | [] => some []
  | JValue.str s :: rest => (decodeTags rest).map (fun l => s :: l)
  | _ => none

/-- Decode a serialized record back into a `PromptItem`; the
specification-side witness that the backup format is field-complete and
re-parseable. -/
def fromJValue (v : JValue) : Option PromptItem :=
  match asStr (v.get? "id"), asStr (v.get? "title"), asStr (v.get? "prompt"),
      (asStr (v.get? "category")).bind categoryOfName with
  | some id1, some title1, some prompt1, some cat1 =>
    match v.get? "tags" with
    | some (JValue.arr ts) =>
      match decodeTags ts with
      | some tags1 =>
        some { id := id1, title := title1, prompt := prompt1,
               negativePrompt := asStr (v.get? "negativePrompt"),
               category := cat1,
               outputMediaUrl := asStr (v.get? "outputMediaUrl"),
               inputMediaUrl := asStr (v.get? "inputMediaUrl"),
               modelUsed := asStr (v.get? "modelUsed"),
               tags := tags1,
               isVideo := asBool (v.get? "isVideo") }
      | none => none
    | _ => none
  | _, _, _, _ => none

/-- A concrete two-record collection, one per media kind, used to witness
`c6_export_import_roundtrip`. -/
def c6Items : List PromptItem :=
  [{ id := "1", title := "Sunset", prompt := "a sunset",
     category := CategoryType.txt2img, outputMediaUrl := some "u",
     tags := ["sky"], isVideo := some false },
   { id := "2", title := "Note", prompt := "text",
     category := CategoryType.general, tags := [] }]

/-- Stepping the import loop over a non-`null` element. -/
theorem importLoop_cons (item : JValue) (rest : List JValue) (count : Nat)
    (saved : List JValue) (h : item.isNull = false) :
    importLoop (item :: rest) count saved =
      if validImportItem item then importLoop rest (count + 1) (saved ++ [item])
      else importLoop rest count saved := by
  cases item
  case null => simp [JValue.isNull] at h
  all_goals rfl

/-- When no element of the payload is `null`, the import loop completes and
saves exactly the elements passing the truthiness check, in order. -/
theorem importLoop_eq_filter (items : List JValue) (count : Nat)
    (saved : List JValue) (h : ∀ i ∈ items, i.isNull = false) :
    importLoop items count saved =
      ⟨true, count + (items.filter validImportItem).length,
        saved ++ items.filter validImportItem⟩ := by
  induction items generalizing count saved with
  | nil => simp [importLoop]
  | cons item rest ih =>
    have hitem : item.isNull = false := h item (by simp)
    have hrest : ∀ i ∈ rest, i.isNull = false := fun i hi => h i (by simp [hi])
    rw [importLoop_cons item rest count saved hitem]
    by_cases hv : validImportItem item
    · rw [if_pos hv, ih (count + 1) (saved ++ [item]) hrest]
      simp [List.filter_cons, hv]
      omega
    · rw [if_neg hv, ih count saved hrest]
      simp [List.filter_cons, hv]

/-- The empty needle occurs in every string. -/
theorem subMatch_nil (hay : List Char) : subMatch [] hay = true := by
  cases hay <;> simp [subMatch, leadMatch]

/-- The code's search predicate agrees with the specification's wording. -/
theorem matchesSearch_iff (q : String) (r : PromptItem) :
    matchesSearch q r = true ↔
      (q = "" ∨ ciMatch r.title q ∨ ciMatch r.prompt q ∨
        ∃ t ∈ r.tags, ciMatch t q) := by
  unfold matchesSearch ciMatch
  simp only [Bool.or_eq_true, List.any_eq_true]
  constructor
  · intro h
    exact Or.inr (or_assoc.mp h)
  · rintro (hq | h)
    · subst hq
      exact Or.inl (Or.inl (subMatch_nil _))
    · exact or_assoc.mpr h

/-- Decoding inverts the serialization of a tags list. -/
theorem decodeTags_map (l : List String) :
    decodeTags (l.map JValue.str) = some l := by
  induction l with
  | nil => rfl
  | cons a l ih => simp [decodeTags, ih]

/-- Parsing inverts the naming of category tags. -/
theorem categoryOfName_name (c : CategoryType) :
    categoryOfName (categoryName c) = some c := by
  cases c <;> rfl

set_option maxHeartbeats 2000000 in
/-- Decoding inverts the serialization of a whole record: the backup
format is lossless. -/
theorem fromJValue_toJValue (p : PromptItem) :
    fromJValue (toJValue p) = some p := by
  obtain ⟨id1, title1, prompt1, np, cat, out, inp, mu, tags1, iv⟩ := p
  cases np <;> cases out <;> cases inp <;> cases mu <;> cases iv <;>
    simp [toJValue, fromJValue, optField, JValue.get?, jlookup, asStr, asBool,
      categoryOfName_name, decodeTags_map]

/-- A record with a non-empty id and prompt serializes to an element
that the import loop accepts. -/
theorem toJValue_valid (p : PromptItem) (h1 : p.id ≠ "") (h2 : p.prompt ≠ "") :
    validImportItem (toJValue p) = true := by
  obtain ⟨id1, title1, prompt1, np, cat, out, inp, mu, tags1, iv⟩ := p
  simp only at h1 h2
  cases np <;> cases cat <;>
    simp [validImportItem, toJValue, optField, JValue.get?, jlookup, jsTruthy,
      categoryName, bne_iff_ne, h1, h2]

/-- Claim C1 (counterexample): the import loop persists an element whose
category is the unrecognized value "bogus", so acceptance is not
conditional on the category being one of the five recognized values. -/
theorem c1_counterexample :
    (importAll (JValue.arr [c1BadItem])).saved = [c1BadItem] ∧
    (importAll (JValue.arr [c1BadItem])).accepted = 1 ∧
    c1BadItem.get? "category" = some (JValue.str "bogus") ∧
    recognizedCategories.contains "bogus" = false :=
  ⟨rfl, rfl, rfl, rfl⟩

/-- Claim C1 (amended): for a payload with no `null` element, an element is
accepted and persisted via `db.save` if and only if its `id`, `category`
and `prompt` fields are all truthy (for strings: present and non-empty);
the category value itself is never checked against the recognized list.
Every other element is skipped silently. -/
theorem c1_import_acceptance (items : List JValue)
    (h : ∀ i ∈ items, i.isNull = false) :
    (importAll (JValue.arr items)).ok = true ∧
    (importAll (JValue.arr items)).saved = items.filter validImportItem ∧
    (importAll (JValue.arr items)).accepted =
      (items.filter validImportItem).length := by
  have hl := importLoop_eq_filter items 0 [] h
  simp [importAll, hl]

/-- Witness for `c1_import_acceptance` at a concrete payload. -/
theorem c1_import_acceptance_witness :
    (∀ i ∈ c1DemoItems, i.isNull = false) ∧
    ((importAll (JValue.arr c1DemoItems)).ok = true ∧
     (importAll (JValue.arr c1DemoItems)).saved =
       c1DemoItems.filter validImportItem ∧
     (importAll (JValue.arr c1DemoItems)).accepted =
       (c1DemoItems.filter validImportItem).length) :=
  ⟨by decide, c1_import_acceptance c1DemoItems (by decide)⟩

/-- Claim C2 (counterexample): the import of the claim's payload and
that of a payload with zero rejected elements produce the very same
report (status message), although their rejected counts differ, so the
rejected count is not part of what `importAll` reports. -/
theorem c2_counterexample :
    (importAll c2Payload).message =
      (importAll (JValue.arr [c2GoodItem])).message ∧
    rejectedOf c2Payload = 1 ∧
    rejectedOf (JValue.arr [c2GoodItem]) = 0 ∧
    (importAll c2Payload).ok = true ∧
    (importAll c2Payload).accepted = 1 :=
  ⟨rfl, rfl, rfl, rfl, rfl⟩

/-- Claim C2 (amended): on the payload `[{id:"1",category:"general",
prompt:"x"}, {id:"2"}]` the import accepts exactly 1 record (persisting
only the first element) without raising, and reports success with the
accepted count 1; the rejected count (1) is derivable but not reported. -/
theorem c2_import_counts :
    (importAll c2Payload).ok = true ∧
    (importAll c2Payload).accepted = 1 ∧
    (importAll c2Payload).saved = [c2GoodItem] ∧
    (importAll c2Payload).message = successMessage 1 ∧
    rejectedOf c2Payload = 1 :=
  ⟨rfl, rfl, rfl, rfl, rfl⟩

/-- Claim C3: `filteredItems` keeps exactly the records the specification
describes: category equality ANDed with (for non-empty search text) a
case-insensitive substring match across title OR prompt OR some tag, empty
search text matching every record of the category. -/
theorem c3_filter_characterization (items : List PromptItem)
    (category : CategoryType) (searchText : String) :
    filteredItems items category searchText =
      items.filter (fun r => decide (specKeep category searchText r)) := by
  unfold filteredItems
  apply List.filter_congr
  intro r _
  rw [Bool.eq_iff_iff]
  simp only [Bool.and_eq_true, beq_iff_eq, decide_eq_true_eq]
  unfold specKeep
  rw [matchesSearch_iff]

/-- Claim C4: when the parsed payload is not an array, the import fails as
a whole: zero records accepted, no `db.save` call, error message shown. -/
theorem c4_nonarray_import_fails (v : JValue) (h : v.isArr = false) :
    (importAll v).ok = false ∧ (importAll v).accepted = 0 ∧
    (importAll v).saved = [] ∧ (importAll v).message = failMessage := by
  cases v <;> simp_all [importAll, JValue.isArr]

/-- Witness for `c4_nonarray_import_fails` at a concrete non-array. -/
theorem c4_nonarray_import_fails_witness :
    (JValue.obj []).isArr = false ∧
    ((importAll (JValue.obj [])).ok = false ∧
     (importAll (JValue.obj [])).accepted = 0 ∧
     (importAll (JValue.obj [])).saved = [] ∧
     (importAll (JValue.obj [])).message = failMessage) :=
  ⟨by decide, c4_nonarray_import_fails (JValue.obj []) (by decide)⟩

/-- Claim C5: a submission whose title or prompt is blank after trimming,
or whose category is non-general while the output media URL is empty,
fails validation: `onSave` (and hence `db.save`) is never invoked. -/
theorem c5_validation_blocks_save (f : FormData)
    (h : emptyAfterTrim f.title = true ∨ emptyAfterTrim f.prompt = true ∨
      (f.category ≠ some CategoryType.general ∧
        jsTruthyStr f.outputMediaUrl = false)) :
    handleSubmit f = none := by
  unfold handleSubmit
  rcases h with h | h | ⟨h1, h2⟩
  · simp [h]
  · simp [h]
  · simp [h2, bne_iff_ne, h1]

/-- Witness for `c5_validation_blocks_save` at a concrete form state. -/
theorem c5_validation_blocks_save_witness :
    (emptyAfterTrim c5Form.title = true ∨ emptyAfterTrim c5Form.prompt = true ∨
      (c5Form.category ≠ some CategoryType.general ∧
        jsTruthyStr c5Form.outputMediaUrl = false)) ∧
    handleSubmit c5Form = none :=
  ⟨Or.inl (by decide), c5_validation_blocks_save c5Form (Or.inl (by decide))⟩

/-- Claim C6: serializing a collection of valid persisted records with the
export and importing the serialization onto an empty store accepts every
record: the import succeeds, the accepted count is the collection size,
exactly the serialized records are passed to `db.save` in order, and the
serialization is lossless (decoding inverts it on every record), so the
reproduced collection is identical to the original. -/
theorem c6_export_import_roundtrip (items : List PromptItem)
    (h : ∀ p ∈ items, p.id ≠ "" ∧ p.prompt ≠ "") :
    (importAll (exportAll items)).ok = true ∧
    (importAll (exportAll items)).accepted = items.length ∧
    (importAll (exportAll items)).saved = items.map toJValue ∧
    ∀ q : PromptItem, fromJValue (toJValue q) = some q := by
  have hnn : ∀ i ∈ items.map toJValue, i.isNull = false := by
    intro i hi
    obtain ⟨p, _, rfl⟩ := List.mem_map.mp hi
    rfl
  have hfilter : (items.map toJValue).filter validImportItem =
      items.map toJValue := by
    apply List.filter_eq_self.mpr
    intro v hv
    obtain ⟨p, hp, rfl⟩ := List.mem_map.mp hv
    exact toJValue_valid p (h p hp).1 (h p hp).2
  have hl := importLoop_eq_filter (items.map toJValue) 0 [] hnn
  refine ⟨?_, ?_, ?_, fun q => fromJValue_toJValue q⟩ <;>
    simp [exportAll, importAll, hl, hfilter]

/-- Witness for `c6_export_import_roundtrip` at a concrete collection. -/
theorem c6_export_import_roundtrip_witness :
    (∀ p ∈ c6Items, p.id ≠ "" ∧ p.prompt ≠ "") ∧
    ((importAll (exportAll c6Items)).ok = true ∧
     (importAll (exportAll c6Items)).accepted = c6Items.length ∧
     (importAll (exportAll c6Items)).saved = c6Items.map toJValue ∧
     ∀ q : PromptItem, fromJValue (toJValue q) = some q) :=
  ⟨by decide, c6_export_import_roundtrip c6Items (by decide)⟩

/-- Claim C7: saving an edit replaces, position by position, exactly the
records whose id equals the submitted record's id by the submitted record
(a whole-record replace), leaves every other record unchanged, preserves
the length, and persists the submitted record as given. -/
theorem c7_edit_is_whole_record_replace (e : PromptItem)
    (prev : List PromptItem) (itemData : PromptItem) (now : Nat) (i : Nat) :
    (handleSaveItem (some e) prev itemData now).items.length = prev.length ∧
    (handleSaveItem (some e) prev itemData now).items[i]? =
      (prev[i]?).map (fun r => if r.id = itemData.id then itemData else r) ∧
    (handleSaveItem (some e) prev itemData now).saved = itemData := by
  refine ⟨by simp [handleSaveItem], ?_, rfl⟩
  simp [handleSaveItem]

/-- Claim C8: `refinePrompt` is total on every combination of key presence
and remote outcome (it never raises): an absent key yields the
"unavailable" string, a remote failure yields the explanatory error
string, and the degenerate response cases yield the fixed fallback — the
caller's original prompt is never altered, only echoed into the request. -/
theorem c8_refine_degrades_gracefully (p key s : String)
    (remote : RemoteOutcome) :
    refinePrompt none p remote = apiKeyMissingMessage ∧
    refinePrompt (some key) p RemoteOutcome.failure =
      (if key = "" then apiKeyMissingMessage else remoteErrorMessage) ∧
    refinePrompt (some key) p (RemoteOutcome.response none) =
      (if key = "" then apiKeyMissingMessage else emptyResponseMessage) ∧
    refinePrompt (some key) p (RemoteOutcome.response (some s)) =
      (if key = "" then apiKeyMissingMessage
       else if s = "" then emptyResponseMessage else s) := by
  refine ⟨rfl, ?_, ?_, ?_⟩ <;>
    by_cases hk : key = "" <;> simp [refinePrompt, jsTruthyStr, hk]

/-- Claim C9: a create (no record being edited) persists the form data
under a fresh timestamp-string id, overriding any id the form carried, and
prepends the new record to the in-memory list. -/
theorem c9_create_assigns_fresh_id (prev : List PromptItem)
    (itemData : PromptItem) (now : Nat) :
    (handleSaveItem none prev itemData now).saved.id = toString now ∧
    (handleSaveItem none prev itemData now).saved =
      { itemData with id := toString now } ∧
    (handleSaveItem none prev itemData now).items =
      { itemData with id := toString now } :: prev :=
  ⟨rfl, rfl, rfl⟩

/-- Claim C10: the import path accepts and persists an element whose
category is `img2vid` (non-general) even though it has no
`outputMediaUrl`, so the data-model invariant is not enforced on import. -/
theorem c10_import_skips_media_invariant :
    (importAll (JValue.arr [c10Item])).ok = true ∧
    (importAll (JValue.arr [c10Item])).saved = [c10Item] ∧
    c10Item.get? "category" = some (JValue.str "img2vid") ∧
    c10Item.get? "outputMediaUrl" = none ∧
    "img2vid" ≠ "general" :=
  ⟨rfl, rfl, rfl, rfl, by decide⟩
